import Mathlib

/-!
Verification development for the telegram guarantor bot (src/bot.py).

Shallow embedding of the bot's deal-lifecycle engine, creation-session
engine and message/callback dispatch.  Persistent SQLite state (tables
`deals` and `logs`) is modelled by `Store`; the in-memory session dicts
`user_states` / `user_temp` by association lists inside `GState`.  The
`users` table is presentation-only (display names) and is not touched by
any property considered here, so it is omitted.  Python floats are
modelled by `PyFloat` with exact decimal values `n * 10 ^ s` (IEEE
rounding of extreme exponents is not modelled); `float(...)` string
parsing follows CPython's grammar over ASCII input.
-/

/-- Deal statuses, the eleven string constants `STATUS_*` of bot.py. -/
inductive Status where
  | await_seller_confirm
  | await_payment
  | paid_wait_delivery
  | wait_buyer_confirm
  | completed
  | dispute
  | resolved_buyer
  | resolved_seller
  | resolved_part
  | rejected_by_seller
  | cancelled
deriving DecidableEq, Repr, Fintype

/-- Creation-session steps, the four `STATE_NEW_DEAL_*` constants. -/
inductive SessionStep where
  | nd_seller
  | nd_amount
  | nd_description
  | nd_confirm
deriving DecidableEq, Repr

/-- A Python float value: a finite value is an exact decimal
`n * 10 ^ s`; the special values come from `float("inf")` /
`float("nan")`.  (Two spellings of the same decimal, e.g. "1" and
"1.0", get different representatives; the program never compares two
independently parsed floats, only a parsed float against `0`.) -/
inductive PyFloat where
  | finite (n : ℤ) (s : ℤ)
  | inf
  | neginf
  | nan
deriving DecidableEq, Repr

/-- The rational value of a finite `PyFloat`. -/
def PyFloat.valQ : PyFloat → Option ℚ
  | .finite n s => some ((n : ℚ) * (10 : ℚ) ^ s)
  | _ => none

/-- Python truthiness of a float (`bool(x)`): only 0.0 is falsy. -/
def pyTruthy : PyFloat → Bool
  | .finite n _ => decide (n ≠ 0)
  | _ => true

/-- Python `x <= 0` on a float; NaN compares false. -/
def pyLeZero : PyFloat → Bool
  | .finite n _ => decide (n ≤ 0)
  | .inf => false
  | .neginf => true
  | .nan => false

/-! ### The CPython `float(str)` parser (ASCII fragment) -/

def isDig (c : Char) : Bool := '0' ≤ c && c ≤ '9'

def digVal (c : Char) : Nat := c.toNat - '0'.toNat

/-- Continue a digit run `digit (('_')? digit)*`; accumulates value and
the number of digits consumed (underscores excluded). -/
def digitsLoop : List Char → Nat → Nat → Option (Nat × Nat)
  | [], acc, cnt => some (acc, cnt)
  | '_' :: c :: rest, acc, cnt =>
      if isDig c then digitsLoop rest (acc * 10 + digVal c) (cnt + 1) else none
  | ['_'], _, _ => none
  | c :: rest, acc, cnt =>
      if isDig c then digitsLoop rest (acc * 10 + digVal c) (cnt + 1) else none

/-- A full `digitpart` of the Python float grammar: value and digit count. -/
def digitpart : List Char → Option (Nat × Nat)
  | [] => none
  | c :: rest => if isDig c then digitsLoop rest (digVal c) 1 else none

/-- Split a list at the first character satisfying `p` (dropping it);
`none` when no such character occurs. -/
def splitOnFirst (p : Char → Bool) : List Char → Option (List Char × List Char)
  | [] => none
  | c :: rest =>
      if p c then some ([], rest)
      else match splitOnFirst p rest with
        | none => none
        | some (a, b) => some (c :: a, b)

/-- Value of a mantissa `digitpart? "." digitpart? | digitpart`
(at least one digit overall), as mantissa integer and decimal scale. -/
def mantissaVal (cs : List Char) : Option (Nat × ℤ) :=
  match splitOnFirst (fun c => c == '.') cs with
  | none => (digitpart cs).map (fun p => (p.1, (0 : ℤ)))
  | some ([], []) => none
  | some ([], fp) => (digitpart fp).map (fun p => (p.1, -(p.2 : ℤ)))
  | some (ip, []) => (digitpart ip).map (fun p => (p.1, (0 : ℤ)))
  | some (ip, fp) =>
      match digitpart ip, digitpart fp with
      | some a, some b => some (a.1 * 10 ^ b.2 + b.1, -(b.2 : ℤ))
      | _, _ => none

/-- Value of an exponent body `sign? digitpart`. -/
def expVal : List Char → Option ℤ
  | '+' :: rest => (digitpart rest).map (fun p => (p.1 : ℤ))
  | '-' :: rest => (digitpart rest).map (fun p => -(p.1 : ℤ))
  | rest => (digitpart rest).map (fun p => (p.1 : ℤ))

/-- Value of an unsigned numeric literal `mantissa (e exponent)?`
(input already lower-cased). -/
def numVal (cs : List Char) : Option (Nat × ℤ) :=
  match splitOnFirst (fun c => c == 'e') cs with
  | none => mantissaVal cs
  | some (m, e) =>
      match mantissaVal m, expVal e with
      | some mv, some ev => some (mv.1, mv.2 + ev)
      | _, _ => none

/-- Body of `float(str)` after sign removal: `inf`, `infinity`, `nan`
or a numeric literal. -/
def pyFloatBody (neg : Bool) (cs : List Char) : Option PyFloat :=
  if cs = "inf".data ∨ cs = "infinity".data then
    some (if neg then .neginf else .inf)
  else if cs = "nan".data then some .nan
  else (numVal cs).map (fun p =>
    .finite (if neg then -(p.1 : ℤ) else (p.1 : ℤ)) p.2)

/-- CPython `float(s)`: strip whitespace, lower-case, optional sign,
then special word or numeric literal.  Exact decimal values; the IEEE
rounding of extreme exponents (e.g. `1e-400` underflowing to `0.0`) is
not modelled. -/
def pyFloatOfString (s : String) : Option PyFloat :=
  let cs := ((s.data.map Char.toLower).dropWhile
    Char.isWhitespace).reverse.dropWhile Char.isWhitespace |>.reverse
  match cs with
  | '+' :: rest => pyFloatBody false rest
  | '-' :: rest => pyFloatBody true rest
  | rest => pyFloatBody false rest

/-- Python `text.replace(",", ".")`: every comma becomes a period. -/
def replaceCommaDot (s : String) : String :=
  String.mk (s.data.map (fun c => if c = ',' then '.' else c))

/-- Python `s.isdigit()` (ASCII fragment): non-empty and all digits. -/
def pyIsdigit (s : String) : Bool := !s.data.isEmpty && s.data.all isDig

/-- `int(s)` for a digit string. -/
def natOfDigits (s : String) : Nat := s.data.foldl (fun a c => a * 10 + digVal c) 0

example : pyFloatOfString "199.99" = some (.finite 19999 (-2)) := by decide
example : pyFloatOfString " -1,5" = none := by decide
example : pyFloatOfString (replaceCommaDot "1,5") = some (.finite 15 (-1)) := by decide
example : pyFloatOfString "nan" = some .nan := by decide
example : pyFloatOfString "INF" = some .inf := by decide
example : pyFloatOfString "1e3" = some (.finite 1 3) := by decide
example : pyFloatOfString "abc" = none := by decide
example : pyFloatOfString "" = none := by decide
example : pyFloatOfString "-2" = some (.finite (-2) 0) := by decide
example : pyFloatOfString ".5" = some (.finite 5 (-1)) := by decide
example : pyFloatOfString "1_000" = some (.finite 1000 0) := by decide
example : pyFloatOfString "0" = some (.finite 0 0) := by decide
example : pyIsdigit "123" = true ∧ pyIsdigit "" = false ∧ natOfDigits "57" = 57 := by decide

/-- Python `s.strip()` (ASCII whitespace fragment). -/
def pyStrip (s : String) : String :=
  String.mk (((s.data.dropWhile Char.isWhitespace).reverse.dropWhile
    Char.isWhitespace).reverse)

example : pyStrip "  42 " = "42" := by decide

/-! ### Data model: the `deals` and `logs` tables -/

/-- One row of the `deals` table. -/
structure Deal where
  id : Nat
  buyer_id : Nat
  seller_id : Nat
  amount : PyFloat
  description : String
  status : Status
  created_at : Nat
  updated_at : Nat
deriving DecidableEq, Repr

/-- One row of the append-only `logs` table. -/
structure LogEntry where
  id : Nat
  deal_id : Nat
  action : String
  created_at : Nat
deriving DecidableEq, Repr

/-- The durable store: both tables plus their AUTOINCREMENT counters. -/
structure Store where
  deals : List Deal
  logs : List LogEntry
  nextDealId : Nat
  nextLogId : Nat
deriving DecidableEq, Repr

/-- `get_deal`: `SELECT ... FROM deals WHERE id=?` (first matching row). -/
def getDeal (db : Store) (deal_id : Nat) : Option Deal :=
  db.deals.find? (fun d => d.id == deal_id)

/-- `UPDATE deals SET status=?, updated_at=? WHERE id=?`. -/
def updDealStatus (db : Store) (deal_id : Nat) (st : Status) (now : Nat) : Store :=
  { db with deals := db.deals.map (fun d =>
      if d.id == deal_id then { d with status := st, updated_at := now } else d) }

/-- `INSERT INTO deals ...` with AUTOINCREMENT id. -/
def insertDeal (db : Store) (d : Deal) : Store :=
  { db with deals := db.deals ++ [d], nextDealId := db.nextDealId + 1 }

/-- `log_action`: `INSERT INTO logs (deal_id, action, created_at)`. -/
def logAction (db : Store) (deal_id : Nat) (action : String) (now : Nat) : Store :=
  { db with logs := db.logs ++ [⟨db.nextLogId, deal_id, action, now⟩],
            nextLogId := db.nextLogId + 1 }

/-- `ORDER BY id DESC LIMIT 1`: the row with the greatest id. -/
def maxById : List Deal → Option Deal
  | [] => none
  | d :: rest =>
      match maxById rest with
      | none => some d
      | some m => if m.id ≤ d.id then some d else some m

/-- `get_latest_paid_waiting_deal_for_seller`: latest deal of this
seller in status `paid_waiting_delivery`. -/
def latestPaidWaitingForSeller (deals : List Deal) (seller_id : Nat) : Option Deal :=
  maxById (deals.filter (fun d =>
    d.seller_id == seller_id && d.status == Status.paid_wait_delivery))

/-! ### Session state: `user_states` / `user_temp` -/

/-- The accumulated fields of one creation session
(`user_temp[tg_id]`, a dict with up to three keys). -/
structure Temp where
  seller_id : Option Nat
  amount : Option PyFloat
  description : Option String
deriving DecidableEq, Repr

/-- The empty temp dict `{}`. -/
def emptyTemp : Temp := ⟨none, none, none⟩

/-- Dict lookup (`m.get(k)`) on an association list. -/
def dlookup {α : Type} (m : List (Nat × α)) (k : Nat) : Option α :=
  (m.find? (fun p => p.1 == k)).map Prod.snd

/-- Dict key removal (`m.pop(k, None)`). -/
def dpop {α : Type} (m : List (Nat × α)) (k : Nat) : List (Nat × α) :=
  m.filter (fun p => !(p.1 == k))

/-- Dict assignment (`m[k] = v`). -/
def dinsert {α : Type} (m : List (Nat × α)) (k : Nat) (v : α) : List (Nat × α) :=
  (k, v) :: dpop m k

/-- The whole program state: durable store plus the two session dicts. -/
structure GState where
  db : Store
  states : List (Nat × SessionStep)
  temps : List (Nat × Temp)
deriving DecidableEq, Repr

/-- `get_state(user_id)`. -/
def getState (g : GState) (uid : Nat) : Option SessionStep :=
  dlookup g.states uid

/-- `set_state(user_id, state)`: `None` pops both dicts; a step stores
the step and creates an empty temp dict only when none exists. -/
def setState (g : GState) (uid : Nat) : Option SessionStep → GState
  | none => { g with states := dpop g.states uid, temps := dpop g.temps uid }
  | some s =>
      { g with states := dinsert g.states uid s,
               temps := match dlookup g.temps uid with
                 | some _ => g.temps
                 | none => dinsert g.temps uid emptyTemp }

/-! ### Events and handler outcomes -/

/-- How a handler resolved an inbound event (which reply branch ran).
`errKey` marks a Python `KeyError` escaping a handler (missing
`user_temp` entry); aiogram would log the exception. -/
inductive Res where
  | ok
  | info
  | menu
  | reprompt
  | errKey
  | notFound
  | unauthorized
  | invalidState
  | unknownAction
  | noSession
  | aborted
  | missingData
  | created
  | delivery
  | fallbackHint
  | fallbackMenu
deriving DecidableEq, Repr

/-- An inbound message: sender, text (`none` for non-text content such
as photos or files) and the `forward_from` user, if any. -/
structure Msg where
  sender : Nat
  text : Option String
  forward_from : Option Nat
deriving DecidableEq, Repr

/-- Dispute-resolution action token component (`parts[1]` of
`adm_buyer_N` / `adm_seller_N` / `adm_partial_N`); `other` stands for
any unrecognised token. -/
inductive AdmKind where
  | buyer
  | seller
  | part
  | other
deriving DecidableEq, Repr

/-- A decoded callback action token (the bot's `callback_data` strings,
decoded once at the boundary; the prefixes are pairwise disjoint so the
string dispatch order does not matter). -/
inductive CbAction where
  | menu_new_deal
  | menu_my_deals
  | new_deal_confirm (isNo : Bool)
  | seller_accept (deal_id : Nat)
  | seller_reject (deal_id : Nat)
  | deal_paid (deal_id : Nat)
  | deal_cancel (deal_id : Nat)
  | deal_sent (deal_id : Nat)
  | buyer_ok (deal_id : Nat)
  | buyer_dispute (deal_id : Nat)
  | adm (kind : AdmKind) (deal_id : Nat)
deriving DecidableEq, Repr

/-- An inbound update: a message or a button callback. -/
inductive Update where
  | msg (m : Msg)
  | cb (sender : Nat) (a : CbAction)
deriving DecidableEq, Repr

/-! ### Creation-session step handlers -/

/-- `new_deal_step_seller` (state `new_deal_seller`, any content):
forwarded sender or a digit string; `if not seller_id` re-prompts. -/
def stepSeller (g : GState) (m : Msg) : GState × Res :=
  let uid := m.sender
  let sellerId : Option Nat :=
    match m.forward_from with
    | some fid => some fid
    | none =>
        match m.text with
        | some t => if pyIsdigit (pyStrip t) then some (natOfDigits (pyStrip t)) else none
        | none => none
  match sellerId with
  | none => (g, .reprompt)
  | some sid =>
      if sid = 0 then (g, .reprompt)
      else
        match dlookup g.temps uid with
        | none => (g, .errKey)
        | some tmp =>
            (setState { g with temps := dinsert g.temps uid { tmp with seller_id := some sid } }
              uid (some .nd_amount), .ok)

/-- `new_deal_step_amount` (state `new_deal_amount`, text only):
`float(text.replace(",", "."))`, re-prompt unless the value fails
`amount <= 0`. -/
def stepAmount (g : GState) (uid : Nat) (t : String) : GState × Res :=
  let text := replaceCommaDot t
  match pyFloatOfString text with
  | none => (g, .reprompt)
  | some v =>
      if pyLeZero v then (g, .reprompt)
      else
        match dlookup g.temps uid with
        | none => (g, .errKey)
        | some tmp =>
            (setState { g with temps := dinsert g.temps uid { tmp with amount := some v } }
              uid (some .nd_description), .ok)

/-- `new_deal_step_description` (state `new_deal_description`, text
only): non-empty stripped text; afterwards the handler reads
`user_temp[uid]["seller_id"]` and `["amount"]`, so a missing field
raises `KeyError` after the state was already advanced. -/
def stepDescription (g : GState) (uid : Nat) (t : String) : GState × Res :=
  let d := pyStrip t
  if d = "" then (g, .reprompt)
  else
    match dlookup g.temps uid with
    | none => (g, .errKey)
    | some tmp =>
        let g1 := setState
          { g with temps := dinsert g.temps uid { tmp with description := some d } }
          uid (some .nd_confirm)
        match tmp.seller_id, tmp.amount with
        | some _, some _ => (g1, .ok)
        | _, _ => (g1, .errKey)

/-- The guard list of `fallback_or_delivery_handler`: the four creation
states.  Since `SessionStep` has exactly these four constructors the
guard is vacuously true, mirroring the "На всякий случай" comment. -/
def inCreationStates (s : SessionStep) : Bool :=
  s == .nd_seller || s == .nd_amount || s == .nd_description || s == .nd_confirm

/-- `fallback_or_delivery_handler` (any content, last message handler):
if the sender is the seller of a latest `paid_waiting_delivery` deal,
treat the message as delivery; otherwise plain fallback replies. -/
def fallbackOrDelivery (g : GState) (m : Msg) (now : Nat) : GState × Res :=
  let uid := m.sender
  let st := getState g uid
  let proceed : Bool :=
    match st with
    | none => true
    | some s => inCreationStates s
  if !proceed then (g, .fallbackHint)
  else
    match latestPaidWaitingForSeller g.db.deals uid with
    | some row =>
        let db1 := logAction (updDealStatus g.db row.id Status.wait_buyer_confirm now)
          row.id ("seller " ++ toString uid ++ " sent the goods by message") now
        ({ g with db := db1 }, .delivery)
    | none => (g, if st.isSome then .fallbackHint else .fallbackMenu)

/-! ### Callback handlers -/

/-- `cb_menu_new_deal`: start (or restart) a creation session. -/
def cbMenuNewDeal (g : GState) (uid : Nat) : GState × Res :=
  (setState g uid (some .nd_seller), .menu)

/-- The truthiness test `seller_id and amount and description` of
`cb_new_deal_confirm`: all three fields present and truthy. -/
def tmpFields (tmp : Temp) : Option (Nat × PyFloat × String) :=
  match tmp.seller_id, tmp.amount, tmp.description with
  | some s, some v, some d =>
      if s ≠ 0 ∧ pyTruthy v = true ∧ d ≠ "" then some (s, v, d) else none
  | _, _, _ => none

/-- `cb_new_deal_confirm`: confirm (insert deal + first log entry) or
abort; either way the session is destroyed. -/
def cbNewDealConfirm (g : GState) (uid : Nat) (isNo : Bool) (now : Nat) : GState × Res :=
  if getState g uid ≠ some SessionStep.nd_confirm then (g, .noSession)
  else if isNo then (setState g uid none, .aborted)
  else
    match tmpFields ((dlookup g.temps uid).getD emptyTemp) with
    | none => (setState g uid none, .missingData)
    | some (sid, v, ds) =>
        let d : Deal := ⟨g.db.nextDealId, uid, sid, v, ds, .await_seller_confirm, now, now⟩
        let db1 := logAction (insertDeal g.db d) d.id
          ("deal created (buyer " ++ toString uid ++ ", seller " ++ toString sid ++ ")") now
        (setState { g with db := db1 } uid none, .created)

/-- `cb_seller_accept`: seller role, `await_seller_confirm` →
`await_payment`. -/
def cbSellerAccept (g : GState) (uid deal_id : Nat) (now : Nat) : GState × Res :=
  match getDeal g.db deal_id with
  | none => (g, .notFound)
  | some row =>
      if uid ≠ row.seller_id then (g, .unauthorized)
      else if row.status ≠ Status.await_seller_confirm then (g, .invalidState)
      else
        let db1 := logAction (updDealStatus g.db deal_id Status.await_payment now)
          deal_id ("seller " ++ toString uid ++ " accepted the deal") now
        ({ g with db := db1 }, .ok)

/-- `cb_seller_reject`: seller role, `await_seller_confirm` →
`rejected_by_seller`. -/
def cbSellerReject (g : GState) (uid deal_id : Nat) (now : Nat) : GState × Res :=
  match getDeal g.db deal_id with
  | none => (g, .notFound)
  | some row =>
      if uid ≠ row.seller_id then (g, .unauthorized)
      else if row.status ≠ Status.await_seller_confirm then (g, .invalidState)
      else
        let db1 := logAction (updDealStatus g.db deal_id Status.rejected_by_seller now)
          deal_id ("seller " ++ toString uid ++ " rejected the deal") now
        ({ g with db := db1 }, .ok)

/-- `cb_deal_paid`: buyer role, `await_payment` → `paid_waiting_delivery`. -/
def cbDealPaid (g : GState) (uid deal_id : Nat) (now : Nat) : GState × Res :=
  match getDeal g.db deal_id with
  | none => (g, .notFound)
  | some row =>
      if uid ≠ row.buyer_id then (g, .unauthorized)
      else if row.status ≠ Status.await_payment then (g, .invalidState)
      else
        let db1 := logAction (updDealStatus g.db deal_id Status.paid_wait_delivery now)
          deal_id ("buyer " ++ toString uid ++ " reported payment") now
        ({ g with db := db1 }, .ok)

/-- `cb_deal_cancel`: buyer role, `await_payment` → `cancelled`. -/
def cbDealCancel (g : GState) (uid deal_id : Nat) (now : Nat) : GState × Res :=
  match getDeal g.db deal_id with
  | none => (g, .notFound)
  | some row =>
      if uid ≠ row.buyer_id then (g, .unauthorized)
      else if row.status ≠ Status.await_payment then (g, .invalidState)
      else
        let db1 := logAction (updDealStatus g.db deal_id Status.cancelled now)
          deal_id ("buyer " ++ toString uid ++ " cancelled before payment") now
        ({ g with db := db1 }, .ok)

/-- `cb_deal_sent`: seller role, `paid_waiting_delivery` →
`waiting_buyer_confirm`. -/
def cbDealSent (g : GState) (uid deal_id : Nat) (now : Nat) : GState × Res :=
  match getDeal g.db deal_id with
  | none => (g, .notFound)
  | some row =>
      if uid ≠ row.seller_id then (g, .unauthorized)
      else if row.status ≠ Status.paid_wait_delivery then (g, .invalidState)
      else
        let db1 := logAction (updDealStatus g.db deal_id Status.wait_buyer_confirm now)
          deal_id ("seller " ++ toString uid ++ " marked the goods sent") now
        ({ g with db := db1 }, .ok)

/-- `cb_buyer_ok`: buyer role, `waiting_buyer_confirm` →
`completed_success`. -/
def cbBuyerOk (g : GState) (uid deal_id : Nat) (now : Nat) : GState × Res :=
  match getDeal g.db deal_id with
  | none => (g, .notFound)
  | some row =>
      if uid ≠ row.buyer_id then (g, .unauthorized)
      else if row.status ≠ Status.wait_buyer_confirm then (g, .invalidState)
      else
        let db1 := logAction (updDealStatus g.db deal_id Status.completed now)
          deal_id ("buyer " ++ toString uid ++ " confirmed success") now
        ({ g with db := db1 }, .ok)

/-- `cb_buyer_dispute`: buyer role, `waiting_buyer_confirm` → `dispute`. -/
def cbBuyerDispute (g : GState) (uid deal_id : Nat) (now : Nat) : GState × Res :=
  match getDeal g.db deal_id with
  | none => (g, .notFound)
  | some row =>
      if uid ≠ row.buyer_id then (g, .unauthorized)
      else if row.status ≠ Status.wait_buyer_confirm then (g, .invalidState)
      else
        let db1 := logAction (updDealStatus g.db deal_id Status.dispute now)
          deal_id ("buyer " ++ toString uid ++ " opened a dispute") now
        ({ g with db := db1 }, .ok)

/-- `cb_admin_dispute`: `is_admin` is checked before the deal lookup;
then `dispute` status; then the action token decides the target. -/
def cbAdminDispute (admins : List Nat) (g : GState) (uid : Nat) (kind : AdmKind)
    (deal_id : Nat) (now : Nat) : GState × Res :=
  if uid ∉ admins then (g, .unauthorized)
  else
    match getDeal g.db deal_id with
    | none => (g, .notFound)
    | some row =>
        if row.status ≠ Status.dispute then (g, .invalidState)
        else
          match kind with
          | .buyer =>
              let db1 := logAction (updDealStatus g.db deal_id Status.resolved_buyer now)
                deal_id ("admin " ++ toString uid ++ " resolved for the buyer") now
              ({ g with db := db1 }, .ok)
          | .seller =>
              let db1 := logAction (updDealStatus g.db deal_id Status.resolved_seller now)
                deal_id ("admin " ++ toString uid ++ " resolved for the seller") now
              ({ g with db := db1 }, .ok)
          | .part =>
              let db1 := logAction (updDealStatus g.db deal_id Status.resolved_part now)
                deal_id ("admin " ++ toString uid ++ " resolved with a split refund") now
              ({ g with db := db1 }, .ok)
          | .other => (g, .unknownAction)

/-! ### Dispatch -/

/-- The command name of a text message, aiogram style: first
whitespace-separated token, when it starts with `/`, without the
leading slash and any `@botname` suffix. -/
def commandOf (t : Option String) : Option String :=
  match t with
  | none => none
  | some s =>
      match (s.data.dropWhile Char.isWhitespace).takeWhile (fun c => !c.isWhitespace) with
      | '/' :: rest => some (String.mk (rest.takeWhile (fun c => c ≠ '@')))
      | _ => none

/-- The six `@dp.message_handler(commands=[...])` handlers registered
before the creation-step handlers.  They only render text (the admin
variants just read the store), so the state is unchanged.  `/cancel` is
NOT here: `cmd_cancel` is registered after the catch-all fallback
handler and is therefore unreachable. -/
def knownCommand (c : String) : Bool :=
  c == "start" || c == "help" || c == "mydeals" || c == "deal" ||
    c == "admin" || c == "disputes"

/-- Message dispatch in aiogram registration order: command handlers,
the three state-filtered step handlers (`new_deal_step_seller` takes
any content, the other two only text), then the catch-all fallback. -/
def isKnownCommandMsg (m : Msg) : Bool :=
  match commandOf m.text with
  | some c => knownCommand c
  | none => false

def handleMsg (g : GState) (m : Msg) (now : Nat) : GState × Res :=
  if isKnownCommandMsg m then (g, .info)
  else
    match getState g m.sender, m.text with
    | some .nd_seller, _ => stepSeller g m
    | some .nd_amount, some t => stepAmount g m.sender t
    | some .nd_description, some t => stepDescription g m.sender t
    | _, _ => fallbackOrDelivery g m now

/-- Callback dispatch (`callback_data` prefixes are disjoint). -/
def handleCb (admins : List Nat) (g : GState) (uid : Nat) (c : CbAction)
    (now : Nat) : GState × Res :=
  match c with
  | .menu_new_deal => cbMenuNewDeal g uid
  | .menu_my_deals => (g, .info)
  | .new_deal_confirm isNo => cbNewDealConfirm g uid isNo now
  | .seller_accept i => cbSellerAccept g uid i now
  | .seller_reject i => cbSellerReject g uid i now
  | .deal_paid i => cbDealPaid g uid i now
  | .deal_cancel i => cbDealCancel g uid i now
  | .deal_sent i => cbDealSent g uid i now
  | .buyer_ok i => cbBuyerOk g uid i now
  | .buyer_dispute i => cbBuyerDispute g uid i now
  | .adm k i => cbAdminDispute admins g uid k i now

/-- One dispatcher step on an inbound update at wall-clock `now`. -/
def handleUpdate (admins : List Nat) (g : GState) (u : Update) (now : Nat) : GState × Res :=
  match u with
  | .msg m => handleMsg g m now
  | .cb s a => handleCb admins g s a now

/-! ### Spec-side definitions (from the words of the spec, for
comparison with the embedded code) -/

/-- The transition table of spec section 4.1 (edges between stored
statuses; the creation edge has no source and is treated separately). -/
def specEdge : Status → Status → Bool
  | .await_seller_confirm, .await_payment => true
  | .await_seller_confirm, .rejected_by_seller => true
  | .await_payment, .paid_wait_delivery => true
  | .await_payment, .cancelled => true
  | .paid_wait_delivery, .wait_buyer_confirm => true
  | .wait_buyer_confirm, .completed => true
  | .wait_buyer_confirm, .dispute => true
  | .dispute, .resolved_buyer => true
  | .dispute, .resolved_seller => true
  | .dispute, .resolved_part => true
  | _, _ => false

/-- The six terminal statuses of spec section 4.1. -/
def terminalStatus : Status → Bool
  | .completed | .rejected_by_seller | .cancelled
  | .resolved_buyer | .resolved_seller | .resolved_part => true
  | _ => false

/-- Spec reading of the COLLECT_AMOUNT acceptance condition: the text,
with commas replaced by periods, parses as a decimal number strictly
greater than zero (a finite positive value). -/
def specPositiveDecimal (t : String) : Bool :=
  match pyFloatOfString (replaceCommaDot t) with
  | some (.finite n _) => decide (0 < n)
  | _ => false

/-- The deal id a callback action names, when it names one. -/
def cbDealId : CbAction → Option Nat
  | .seller_accept i | .seller_reject i | .deal_sent i => some i
  | .deal_paid i | .deal_cancel i | .buyer_ok i | .buyer_dispute i => some i
  | .adm _ i => some i
  | _ => none

/-- Whether `uid` holds the role the transition row behind a callback
requires for deal `d` (seller rows, buyer rows, arbiter rows). -/
def requiredRole (admins : List Nat) (uid : Nat) (d : Deal) : CbAction → Bool
  | .seller_accept _ | .seller_reject _ | .deal_sent _ => uid == d.seller_id
  | .deal_paid _ | .deal_cancel _ | .buyer_ok _ | .buyer_dispute _ => uid == d.buyer_id
  | .adm _ _ => decide (uid ∈ admins)
  | _ => true

/-- Database well-formedness: primary-key uniqueness of deal ids and
freshness of the AUTOINCREMENT counter (both hold by construction in
SQLite and are preserved by every handler). -/
def WF (g : GState) : Prop :=
  (g.db.deals.map Deal.id).Nodup ∧ ∀ d ∈ g.db.deals, d.id < g.db.nextDealId

/-- Shape of any one dispatcher step's effect on the durable store:
either both tables are untouched, or exactly one log row is appended
together with exactly one committed change — a fresh deal created in
`await_seller_confirm`, or one existing deal moved along a spec edge. -/
def CommitShape (db db' : Store) : Prop :=
  (db'.deals = db.deals ∧ db'.logs = db.logs)
  ∨ ((∃ e, db'.logs = db.logs ++ [e]) ∧
      ((∃ d, db'.deals = db.deals ++ [d] ∧ d.status = Status.await_seller_confirm ∧
          ∀ d0 ∈ db.deals, d0.id ≠ d.id)
       ∨ (∃ did src tgt now2, specEdge src tgt = true ∧
            (∃ d0 ∈ db.deals, d0.id = did ∧ d0.status = src) ∧
            db'.deals = (updDealStatus db did tgt now2).deals)))

/-! ### Concrete sample states -/

def store0 : Store := ⟨[], [], 1, 1⟩

def gEmpty : GState := ⟨store0, [], []⟩

def sampleDeal : Deal := ⟨1, 10, 20, .finite 5 0, "item", .await_seller_confirm, 0, 0⟩

def gOne : GState := ⟨⟨[sampleDeal], [], 2, 1⟩, [], []⟩

def paidDeal : Deal := ⟨1, 4, 9, .finite 5 0, "item", .paid_wait_delivery, 0, 0⟩

def completedDeal : Deal := ⟨1, 10, 20, .finite 5 0, "item", .completed, 0, 0⟩

example :
    (handleUpdate [] gOne (.cb 20 (.seller_accept 1)) 7).1.db.deals =
      [⟨1, 10, 20, .finite 5 0, "item", .await_payment, 0, 7⟩] := by decide

example : (handleUpdate [] gOne (.cb 21 (.seller_accept 1)) 7).2 = Res.unauthorized := by decide

example : (handleUpdate [] gOne (.cb 20 (.seller_accept 2)) 7).2 = Res.notFound := by decide

example :
    (handleUpdate [] ⟨⟨[paidDeal], [], 2, 1⟩, [], []⟩ (.msg ⟨9, some "hello", none⟩) 3).2 =
      Res.delivery := by decide

example :
    (handleUpdate [] ⟨⟨[paidDeal], [], 2, 1⟩, [(9, .nd_amount)], [(9, emptyTemp)]⟩
      (.msg ⟨9, some "hello", none⟩) 3).2 = Res.reprompt := by decide

/-! ### Basic lemmas about the state primitives -/

theorem setState_db (g : GState) (uid : Nat) (s : Option SessionStep) :
    (setState g uid s).db = g.db := by cases s <;> rfl

theorem inCreationStates_true (s : SessionStep) : inCreationStates s = true := by
  cases s <;> rfl

theorem dlookup_dinsert_self {α : Type} (m : List (Nat × α)) (k : Nat) (v : α) :
    dlookup (dinsert m k v) k = some v := by
  simp [dlookup, dinsert, List.find?]

theorem dlookup_dpop_self {α : Type} (m : List (Nat × α)) (k : Nat) :
    dlookup (dpop m k) k = none := by
  induction m with
  | nil => rfl
  | cons p t ih =>
      by_cases h : p.1 = k
      · simpa [dpop, dlookup, h] using ih
      · simpa [dpop, dlookup, List.find?, h] using ih


theorem dlookup_cons {α : Type} (p : Nat × α) (t : List (Nat × α)) (k : Nat) :
    dlookup (p :: t) k = if p.1 = k then some p.2 else dlookup t k := by
  by_cases h : p.1 = k
  · have hb : (p.1 == k) = true := by simp [h]
    simp [dlookup, List.find?, hb, h]
  · have hb : (p.1 == k) = false := by simp [h]
    simp [dlookup, List.find?, hb, h]

theorem dpop_cons {α : Type} (p : Nat × α) (t : List (Nat × α)) (k : Nat) :
    dpop (p :: t) k = if p.1 = k then dpop t k else p :: dpop t k := by
  by_cases h : p.1 = k <;> simp [dpop, List.filter_cons, h]

theorem dlookup_dpop_ne {α : Type} (m : List (Nat × α)) (k k' : Nat) (h : k' ≠ k) :
    dlookup (dpop m k) k' = dlookup m k' := by
  induction m with
  | nil => rfl
  | cons p t ih =>
      rw [dpop_cons, dlookup_cons]
      by_cases h1 : p.1 = k
      · have h2 : ¬ (p.1 = k') := by rw [h1]; exact fun he => h he.symm
        simp [h1, h2, ih, Ne.symm h]
      · by_cases h2 : p.1 = k'
        · simp [h1, h2, dlookup_cons, Ne.symm h, h]
        · simp [h1, h2, dlookup_cons, ih]

theorem dlookup_dinsert_ne {α : Type} (m : List (Nat × α)) (k k' : Nat) (v : α)
    (h : k' ≠ k) : dlookup (dinsert m k v) k' = dlookup m k' := by
  rw [dinsert, dlookup_cons]
  have h1 : ¬ (k = k') := fun he => h he.symm
  simp [h1, dlookup_dpop_ne m k k' h]

theorem find?_id_nodup (l : List Deal) (hl : (l.map Deal.id).Nodup) (d : Deal)
    (hd : d ∈ l) : l.find? (fun x => x.id == d.id) = some d := by
  induction l with
  | nil => cases hd
  | cons a t ih =>
      rcases List.mem_cons.mp hd with rfl | hmem
      · exact List.find?_cons_of_pos t (by simp)
      · have hne : ¬ (a.id = d.id) := by
          intro he
          have h1 := (List.nodup_cons.mp hl).1
          exact h1 (he ▸ List.mem_map_of_mem Deal.id hmem)
        rw [List.find?_cons_of_neg t (by simp [hne])]
        exact ih (List.nodup_cons.mp hl).2 hmem

theorem getDeal_mem {db : Store} {did : Nat} {d : Deal} (h : getDeal db did = some d) :
    d ∈ db.deals ∧ d.id = did := by
  refine ⟨List.mem_of_find?_eq_some h, ?_⟩
  have hp := List.find?_some h
  simpa using hp

theorem getDeal_of_mem {g : GState} (hwf : WF g) {d : Deal} (hd : d ∈ g.db.deals) :
    getDeal g.db d.id = some d :=
  find?_id_nodup g.db.deals hwf.1 d hd

theorem logAction_deals (db : Store) (i : Nat) (a : String) (n : Nat) :
    (logAction db i a n).deals = db.deals := rfl

theorem logAction_logs (db : Store) (i : Nat) (a : String) (n : Nat) :
    (logAction db i a n).logs = db.logs ++ [⟨db.nextLogId, i, a, n⟩] := rfl

theorem updDealStatus_logs (db : Store) (did : Nat) (st : Status) (n : Nat) :
    (updDealStatus db did st n).logs = db.logs := rfl

theorem maxById_mem {l : List Deal} {d : Deal} (h : maxById l = some d) : d ∈ l := by
  induction l with
  | nil => cases h
  | cons a t ih =>
      unfold maxById at h
      split at h
      next hm =>
        injection h with h
        subst h
        exact List.mem_cons_self _ _
      next m hm =>
        split at h
        · injection h with h
          subst h
          exact List.mem_cons_self _ _
        · injection h with h
          subst h
          exact List.mem_cons_of_mem _ (ih hm)

theorem latestPaidWaiting_spec {deals : List Deal} {sid : Nat} {row : Deal}
    (h : latestPaidWaitingForSeller deals sid = some row) :
    row ∈ deals ∧ row.seller_id = sid ∧ row.status = Status.paid_wait_delivery := by
  have hmem := maxById_mem h
  have hf := List.mem_filter.mp hmem
  have h2 := hf.2
  simp only [Bool.and_eq_true, beq_iff_eq] at h2
  exact ⟨hf.1, h2.1, h2.2⟩

/-! ### Commit-shape lemmas: every handler leaves the store untouched
or commits exactly one transition with exactly one log entry -/

theorem commitShape_refl (db : Store) : CommitShape db db := Or.inl ⟨rfl, rfl⟩

theorem commitShape_commit (g : GState) (did : Nat) (src tgt : Status) (now : Nat)
    (row : Deal) (hrow : row ∈ g.db.deals) (hid : row.id = did) (hsrc : row.status = src)
    (hedge : specEdge src tgt = true) (a : String) :
    CommitShape g.db (logAction (updDealStatus g.db did tgt now) did a now) := by
  right
  refine ⟨⟨_, rfl⟩, Or.inr ⟨did, src, tgt, now, hedge, ⟨row, hrow, hid, hsrc⟩, ?_⟩⟩
  rw [logAction_deals]

theorem commitShape_cbSellerAccept (g : GState) (uid i now : Nat) :
    CommitShape g.db (cbSellerAccept g uid i now).1.db := by
  unfold cbSellerAccept
  split
  · exact commitShape_refl g.db
  next row hfind =>
    split
    · exact commitShape_refl g.db
    · split
      · exact commitShape_refl g.db
      next h2 =>
        have hd := getDeal_mem hfind
        exact commitShape_commit g i _ Status.await_payment now row hd.1 hd.2 (not_ne_iff.mp h2) rfl _

theorem commitShape_cbSellerReject (g : GState) (uid i now : Nat) :
    CommitShape g.db (cbSellerReject g uid i now).1.db := by
  unfold cbSellerReject
  split
  · exact commitShape_refl g.db
  next row hfind =>
    split
    · exact commitShape_refl g.db
    · split
      · exact commitShape_refl g.db
      next h2 =>
        have hd := getDeal_mem hfind
        exact commitShape_commit g i _ Status.rejected_by_seller now row hd.1 hd.2
          (not_ne_iff.mp h2) rfl _

theorem commitShape_cbDealPaid (g : GState) (uid i now : Nat) :
    CommitShape g.db (cbDealPaid g uid i now).1.db := by
  unfold cbDealPaid
  split
  · exact commitShape_refl g.db
  next row hfind =>
    split
    · exact commitShape_refl g.db
    · split
      · exact commitShape_refl g.db
      next h2 =>
        have hd := getDeal_mem hfind
        exact commitShape_commit g i _ Status.paid_wait_delivery now row hd.1 hd.2
          (not_ne_iff.mp h2) rfl _

theorem commitShape_cbDealCancel (g : GState) (uid i now : Nat) :
    CommitShape g.db (cbDealCancel g uid i now).1.db := by
  unfold cbDealCancel
  split
  · exact commitShape_refl g.db
  next row hfind =>
    split
    · exact commitShape_refl g.db
    · split
      · exact commitShape_refl g.db
      next h2 =>
        have hd := getDeal_mem hfind
        exact commitShape_commit g i _ Status.cancelled now row hd.1 hd.2
          (not_ne_iff.mp h2) rfl _

theorem commitShape_cbDealSent (g : GState) (uid i now : Nat) :
    CommitShape g.db (cbDealSent g uid i now).1.db := by
  unfold cbDealSent
  split
  · exact commitShape_refl g.db
  next row hfind =>
    split
    · exact commitShape_refl g.db
    · split
      · exact commitShape_refl g.db
      next h2 =>
        have hd := getDeal_mem hfind
        exact commitShape_commit g i _ Status.wait_buyer_confirm now row hd.1 hd.2
          (not_ne_iff.mp h2) rfl _

theorem commitShape_cbBuyerOk (g : GState) (uid i now : Nat) :
    CommitShape g.db (cbBuyerOk g uid i now).1.db := by
  unfold cbBuyerOk
  split
  · exact commitShape_refl g.db
  next row hfind =>
    split
    · exact commitShape_refl g.db
    · split
      · exact commitShape_refl g.db
      next h2 =>
        have hd := getDeal_mem hfind
        exact commitShape_commit g i _ Status.completed now row hd.1 hd.2
          (not_ne_iff.mp h2) rfl _

theorem commitShape_cbBuyerDispute (g : GState) (uid i now : Nat) :
    CommitShape g.db (cbBuyerDispute g uid i now).1.db := by
  unfold cbBuyerDispute
  split
  · exact commitShape_refl g.db
  next row hfind =>
    split
    · exact commitShape_refl g.db
    · split
      · exact commitShape_refl g.db
      next h2 =>
        have hd := getDeal_mem hfind
        exact commitShape_commit g i _ Status.dispute now row hd.1 hd.2
          (not_ne_iff.mp h2) rfl _

theorem commitShape_cbAdminDispute (admins : List Nat) (g : GState) (uid : Nat)
    (k : AdmKind) (i now : Nat) :
    CommitShape g.db (cbAdminDispute admins g uid k i now).1.db := by
  unfold cbAdminDispute
  split
  · exact commitShape_refl g.db
  · split
    · exact commitShape_refl g.db
    next row hfind =>
      split
      · exact commitShape_refl g.db
      next h2 =>
        have hd := getDeal_mem hfind
        cases k with
        | buyer =>
            exact commitShape_commit g i _ Status.resolved_buyer now row hd.1 hd.2
              (not_ne_iff.mp h2) rfl _
        | seller =>
            exact commitShape_commit g i _ Status.resolved_seller now row hd.1 hd.2
              (not_ne_iff.mp h2) rfl _
        | part =>
            exact commitShape_commit g i _ Status.resolved_part now row hd.1 hd.2
              (not_ne_iff.mp h2) rfl _
        | other => exact commitShape_refl g.db

theorem commitShape_create (g : GState) (hwf : WF g) (d : Deal)
    (hid : d.id = g.db.nextDealId) (hst : d.status = Status.await_seller_confirm)
    (i : Nat) (a : String) (now : Nat) :
    CommitShape g.db (logAction (insertDeal g.db d) i a now) := by
  right
  refine ⟨⟨_, rfl⟩, Or.inl ⟨d, rfl, hst, ?_⟩⟩
  intro d0 hd0
  have hlt := hwf.2 d0 hd0
  rw [hid]
  exact Nat.ne_of_lt hlt

theorem commitShape_cbNewDealConfirm (g : GState) (hwf : WF g) (uid : Nat)
    (isNo : Bool) (now : Nat) :
    CommitShape g.db (cbNewDealConfirm g uid isNo now).1.db := by
  unfold cbNewDealConfirm
  split
  · exact commitShape_refl g.db
  · split
    · rw [setState_db]
      exact commitShape_refl g.db
    · split
      · rw [setState_db]
        exact commitShape_refl g.db
      next sid v ds htmp =>
        rw [setState_db]
        exact commitShape_create g hwf _ rfl rfl _ _ now

theorem stepSeller_db (g : GState) (m : Msg) : (stepSeller g m).1.db = g.db := by
  simp only [stepSeller]
  split
  · rfl
  · split
    · rfl
    · split
      · rfl
      · rw [setState_db]

theorem stepAmount_db (g : GState) (uid : Nat) (t : String) :
    (stepAmount g uid t).1.db = g.db := by
  simp only [stepAmount]
  split
  · rfl
  · split
    · rfl
    · split
      · rfl
      · rw [setState_db]

theorem stepDescription_db (g : GState) (uid : Nat) (t : String) :
    (stepDescription g uid t).1.db = g.db := by
  simp only [stepDescription]
  split
  · rfl
  · split
    · rfl
    · split
      · rw [setState_db]
      · rw [setState_db]

theorem commitShape_fallback (g : GState) (m : Msg) (now : Nat) :
    CommitShape g.db (fallbackOrDelivery g m now).1.db := by
  simp only [fallbackOrDelivery]
  split
  · exact commitShape_refl g.db
  · split
    next row hrow =>
      have hs := latestPaidWaiting_spec hrow
      exact commitShape_commit g row.id _ Status.wait_buyer_confirm now row hs.1 rfl
        hs.2.2 rfl _
    · exact commitShape_refl g.db

theorem commitShape_handleMsg (g : GState) (m : Msg) (now : Nat) :
    CommitShape g.db (handleMsg g m now).1.db := by
  unfold handleMsg
  split
  · exact commitShape_refl g.db
  · split
    · rw [stepSeller_db]
      exact commitShape_refl g.db
    · rw [stepAmount_db]
      exact commitShape_refl g.db
    · rw [stepDescription_db]
      exact commitShape_refl g.db
    · exact commitShape_fallback g m now

theorem commitShape_handleCb (admins : List Nat) (g : GState) (hwf : WF g)
    (uid : Nat) (c : CbAction) (now : Nat) :
    CommitShape g.db (handleCb admins g uid c now).1.db := by
  cases c with
  | menu_new_deal =>
      show CommitShape g.db (cbMenuNewDeal g uid).1.db
      unfold cbMenuNewDeal
      rw [setState_db]
      exact commitShape_refl g.db
  | menu_my_deals => exact commitShape_refl g.db
  | new_deal_confirm isNo => exact commitShape_cbNewDealConfirm g hwf uid isNo now
  | seller_accept i => exact commitShape_cbSellerAccept g uid i now
  | seller_reject i => exact commitShape_cbSellerReject g uid i now
  | deal_paid i => exact commitShape_cbDealPaid g uid i now
  | deal_cancel i => exact commitShape_cbDealCancel g uid i now
  | deal_sent i => exact commitShape_cbDealSent g uid i now
  | buyer_ok i => exact commitShape_cbBuyerOk g uid i now
  | buyer_dispute i => exact commitShape_cbBuyerDispute g uid i now
  | adm k i => exact commitShape_cbAdminDispute admins g uid k i now

theorem commitShape_handleUpdate (admins : List Nat) (g : GState) (hwf : WF g)
    (u : Update) (now : Nat) :
    CommitShape g.db (handleUpdate admins g u now).1.db := by
  cases u with
  | msg m => exact commitShape_handleMsg g m now
  | cb s a => exact commitShape_handleCb admins g hwf s a now

theorem specEdge_not_terminal : ∀ s t, specEdge s t = true → terminalStatus s = false := by
  decide

theorem specEdge_ne : ∀ s t, specEdge s t = true → s ≠ t := by decide

theorem terminal_ne_sources : ∀ s, terminalStatus s = true →
    s ≠ Status.await_seller_confirm ∧ s ≠ Status.await_payment ∧
    s ≠ Status.paid_wait_delivery ∧ s ≠ Status.wait_buyer_confirm ∧
    s ≠ Status.dispute := by decide

/-! ### The claims -/

/-- C1: for every deal and every handled event (button callback or
free-text message), the deal's status only ever changes along an edge
of the spec 4.1 transition table: every deal present after a dispatcher
step either kept its previous status, moved along a table edge from its
previous status, or is a freshly created deal in `await_seller_confirm`
(the creation row of the table). -/
theorem c1_status_moves_along_table (admins : List Nat) (g : GState) (u : Update)
    (now : Nat) (hwf : WF g) (d' : Deal)
    (hd' : d' ∈ (handleUpdate admins g u now).1.db.deals) :
    (∃ d ∈ g.db.deals, d.id = d'.id ∧
      (d'.status = d.status ∨ specEdge d.status d'.status = true))
    ∨ ((∀ d ∈ g.db.deals, d.id ≠ d'.id) ∧ d'.status = Status.await_seller_confirm) := by
  rcases commitShape_handleUpdate admins g hwf u now with ⟨hdeals, _⟩ | ⟨_, hcr | hupd⟩
  · rw [hdeals] at hd'
    exact Or.inl ⟨d', hd', rfl, Or.inl rfl⟩
  · rcases hcr with ⟨d, heq, hst, hfresh⟩
    rw [heq] at hd'
    rcases List.mem_append.mp hd' with hold | hnew
    · exact Or.inl ⟨d', hold, rfl, Or.inl rfl⟩
    · have hdd : d' = d := by simpa using hnew
      subst hdd
      exact Or.inr ⟨hfresh, hst⟩
  · rcases hupd with ⟨did, src, tgt, now2, hedge, ⟨d0, hd0, hd0id, hd0src⟩, hdeals⟩
    rw [hdeals] at hd'
    rcases List.mem_map.mp hd' with ⟨e, he, hfe⟩
    by_cases hid : e.id = did
    · have hed0 : e = d0 := List.inj_on_of_nodup_map hwf.1 he hd0 (by rw [hid, hd0id])
      simp only [hid, beq_self_eq_true, if_true] at hfe
      refine Or.inl ⟨e, he, ?_, Or.inr ?_⟩
      · rw [← hfe, hid]
      · rw [← hfe]
        have hes : e.status = src := by rw [hed0, hd0src]
        rw [hes]
        exact hedge
    · have hbeq : (e.id == did) = false := by simp [hid]
      simp only [hbeq, Bool.false_eq_true, if_false] at hfe
      rw [← hfe]
      exact Or.inl ⟨e, he, rfl, Or.inl rfl⟩

def c1wDeal : Deal := ⟨1, 10, 20, .finite 5 0, "item", .await_payment, 0, 7⟩

/-- Witness for C1: a seller-accept callback on the sample deal. -/
theorem c1_status_moves_along_table_witness :
    (∃ d ∈ gOne.db.deals, d.id = c1wDeal.id ∧
      (c1wDeal.status = d.status ∨ specEdge d.status c1wDeal.status = true))
    ∨ ((∀ d ∈ gOne.db.deals, d.id ≠ c1wDeal.id) ∧
        c1wDeal.status = Status.await_seller_confirm) :=
  c1_status_moves_along_table [] gOne (.cb 20 (.seller_accept 1)) 7
    (by constructor <;> decide) c1wDeal (by decide)

/-- C9: every committed transition, deal creation included, appends
exactly one row to the audit log, and one log row is appended exactly
when a commit happened: a dispatcher step either leaves both tables
untouched, or appends exactly one log row together with exactly one
committed change (one fresh deal inserted, or one existing deal's
status rewritten to a genuinely different status). -/
theorem c9_one_log_per_commit (admins : List Nat) (g : GState) (u : Update)
    (now : Nat) (hwf : WF g) :
    ((handleUpdate admins g u now).1.db.deals = g.db.deals ∧
      (handleUpdate admins g u now).1.db.logs = g.db.logs)
    ∨ ((∃ e, (handleUpdate admins g u now).1.db.logs = g.db.logs ++ [e]) ∧
        ((∃ d, (handleUpdate admins g u now).1.db.deals = g.db.deals ++ [d] ∧
            (∀ d0 ∈ g.db.deals, d0.id ≠ d.id))
         ∨ (∃ did src tgt now2, src ≠ tgt ∧
              (∃ d0 ∈ g.db.deals, d0.id = did ∧ d0.status = src) ∧
              (handleUpdate admins g u now).1.db.deals =
                (updDealStatus g.db did tgt now2).deals))) := by
  rcases commitShape_handleUpdate admins g hwf u now with ⟨hdeals, hlogs⟩ | ⟨he, hcr | hupd⟩
  · exact Or.inl ⟨hdeals, hlogs⟩
  · rcases hcr with ⟨d, heq, _, hfresh⟩
    exact Or.inr ⟨he, Or.inl ⟨d, heq, hfresh⟩⟩
  · rcases hupd with ⟨did, src, tgt, now2, hedge, hsrc, hdeals⟩
    exact Or.inr ⟨he, Or.inr ⟨did, src, tgt, now2, specEdge_ne src tgt hedge, hsrc, hdeals⟩⟩

/-- Witness for C9: the same seller-accept commit. -/
theorem c9_one_log_per_commit_witness :
    ((handleUpdate [] gOne (.cb 20 (.seller_accept 1)) 7).1.db.deals = gOne.db.deals ∧
      (handleUpdate [] gOne (.cb 20 (.seller_accept 1)) 7).1.db.logs = gOne.db.logs)
    ∨ ((∃ e, (handleUpdate [] gOne (.cb 20 (.seller_accept 1)) 7).1.db.logs =
          gOne.db.logs ++ [e]) ∧
        ((∃ d, (handleUpdate [] gOne (.cb 20 (.seller_accept 1)) 7).1.db.deals =
            gOne.db.deals ++ [d] ∧ (∀ d0 ∈ gOne.db.deals, d0.id ≠ d.id))
         ∨ (∃ did src tgt now2, src ≠ tgt ∧
              (∃ d0 ∈ gOne.db.deals, d0.id = did ∧ d0.status = src) ∧
              (handleUpdate [] gOne (.cb 20 (.seller_accept 1)) 7).1.db.deals =
                (updDealStatus gOne.db did tgt now2).deals))) :=
  c9_one_log_per_commit [] gOne (.cb 20 (.seller_accept 1)) 7 (by constructor <;> decide)

/-- C2 counterexample: the claim says a transition attempt on a
terminal deal is rejected as InvalidState for EVERY actor, but the role
check runs first: a non-seller pressing seller-accept on a completed
deal is rejected as Unauthorized, not InvalidState. -/
theorem c2_counterexample :
    terminalStatus completedDeal.status = true ∧
    (handleUpdate [] ⟨⟨[completedDeal], [], 2, 1⟩, [], []⟩
        (.cb 99 (.seller_accept 1)) 7).2 = Res.unauthorized ∧
    Res.unauthorized ≠ Res.invalidState := by
  refine ⟨by decide, by decide, by decide⟩

/-- C2 (amended): once a deal's status is terminal, its row never
changes again under any event by any actor; a callback attempt
targeting it is rejected — with Unauthorized when the actor fails the
handler's role/allow-list check (checked first), with InvalidState
otherwise — and commits nothing. -/
theorem c2_terminal_frozen (admins : List Nat) (g : GState) (u : Update) (now : Nat)
    (hwf : WF g) (d : Deal) (hd : d ∈ g.db.deals) (hter : terminalStatus d.status = true) :
    (∀ d' ∈ (handleUpdate admins g u now).1.db.deals, d'.id = d.id → d' = d)
    ∧ (∀ uid c, u = Update.cb uid c → cbDealId c = some d.id →
        (handleUpdate admins g u now).2 = Res.unauthorized ∨
        (handleUpdate admins g u now).2 = Res.invalidState) := by
  constructor
  · intro d' hd' hid
    rcases commitShape_handleUpdate admins g hwf u now with ⟨hdeals, _⟩ | ⟨_, hcr | hupd⟩
    · rw [hdeals] at hd'
      exact List.inj_on_of_nodup_map hwf.1 hd' hd (by rw [hid])
    · rcases hcr with ⟨dn, heq, _, hfresh⟩
      rw [heq] at hd'
      rcases List.mem_append.mp hd' with hold | hnew
      · exact List.inj_on_of_nodup_map hwf.1 hold hd (by rw [hid])
      · have hdd : d' = dn := by simpa using hnew
        exact absurd (hdd ▸ hid).symm (hfresh d hd)
    · rcases hupd with ⟨did, src, tgt, now2, hedge, ⟨d0, hd0, hd0id, hd0src⟩, hdeals⟩
      rw [hdeals] at hd'
      rcases List.mem_map.mp hd' with ⟨e, he, hfe⟩
      by_cases hide : e.id = did
      · have hed0 : e = d0 := List.inj_on_of_nodup_map hwf.1 he hd0 (by rw [hide, hd0id])
        simp only [hide, beq_self_eq_true, if_true] at hfe
        have hdid : d.id = did := by rw [← hid, ← hfe]
        have hdd0 : d = d0 := List.inj_on_of_nodup_map hwf.1 hd hd0 (by rw [hdid, hd0id])
        have : terminalStatus src = false := specEdge_not_terminal src tgt hedge
        rw [← hd0src, ← hdd0] at this
        rw [hter] at this
        cases this
      · have hbeq : (e.id == did) = false := by simp [hide]
        simp only [hbeq, Bool.false_eq_true, if_false] at hfe
        rw [← hfe] at hid ⊢
        exact List.inj_on_of_nodup_map hwf.1 he hd (by rw [hid])
  · intro uid c hu hc
    subst hu
    have hne := terminal_ne_sources d.status hter
    cases c with
    | menu_new_deal => cases hc
    | menu_my_deals => cases hc
    | new_deal_confirm isNo => cases hc
    | seller_accept i =>
        have hi : i = d.id := by simpa [cbDealId] using hc
        subst hi
        have hfind : getDeal g.db d.id = some d := getDeal_of_mem hwf hd
        show (cbSellerAccept g uid d.id now).2 = _ ∨ (cbSellerAccept g uid d.id now).2 = _
        unfold cbSellerAccept
        rw [hfind]
        by_cases huid : uid ≠ d.seller_id
        · simp [huid]
        · simp [huid, hne.1]
    | seller_reject i =>
        have hi : i = d.id := by simpa [cbDealId] using hc
        subst hi
        have hfind : getDeal g.db d.id = some d := getDeal_of_mem hwf hd
        show (cbSellerReject g uid d.id now).2 = _ ∨ (cbSellerReject g uid d.id now).2 = _
        unfold cbSellerReject
        rw [hfind]
        by_cases huid : uid ≠ d.seller_id
        · simp [huid]
        · simp [huid, hne.1]
    | deal_paid i =>
        have hi : i = d.id := by simpa [cbDealId] using hc
        subst hi
        have hfind : getDeal g.db d.id = some d := getDeal_of_mem hwf hd
        show (cbDealPaid g uid d.id now).2 = _ ∨ (cbDealPaid g uid d.id now).2 = _
        unfold cbDealPaid
        rw [hfind]
        by_cases huid : uid ≠ d.buyer_id
        · simp [huid]
        · simp [huid, hne.2.1]
    | deal_cancel i =>
        have hi : i = d.id := by simpa [cbDealId] using hc
        subst hi
        have hfind : getDeal g.db d.id = some d := getDeal_of_mem hwf hd
        show (cbDealCancel g uid d.id now).2 = _ ∨ (cbDealCancel g uid d.id now).2 = _
        unfold cbDealCancel
        rw [hfind]
        by_cases huid : uid ≠ d.buyer_id
        · simp [huid]
        · simp [huid, hne.2.1]
    | deal_sent i =>
        have hi : i = d.id := by simpa [cbDealId] using hc
        subst hi
        have hfind : getDeal g.db d.id = some d := getDeal_of_mem hwf hd
        show (cbDealSent g uid d.id now).2 = _ ∨ (cbDealSent g uid d.id now).2 = _
        unfold cbDealSent
        rw [hfind]
        by_cases huid : uid ≠ d.seller_id
        · simp [huid]
        · simp [huid, hne.2.2.1]
    | buyer_ok i =>
        have hi : i = d.id := by simpa [cbDealId] using hc
        subst hi
        have hfind : getDeal g.db d.id = some d := getDeal_of_mem hwf hd
        show (cbBuyerOk g uid d.id now).2 = _ ∨ (cbBuyerOk g uid d.id now).2 = _
        unfold cbBuyerOk
        rw [hfind]
        by_cases huid : uid ≠ d.buyer_id
        · simp [huid]
        · simp [huid, hne.2.2.2.1]
    | buyer_dispute i =>
        have hi : i = d.id := by simpa [cbDealId] using hc
        subst hi
        have hfind : getDeal g.db d.id = some d := getDeal_of_mem hwf hd
        show (cbBuyerDispute g uid d.id now).2 = _ ∨ (cbBuyerDispute g uid d.id now).2 = _
        unfold cbBuyerDispute
        rw [hfind]
        by_cases huid : uid ≠ d.buyer_id
        · simp [huid]
        · simp [huid, hne.2.2.2.1]
    | adm k i =>
        have hi : i = d.id := by simpa [cbDealId] using hc
        subst hi
        have hfind : getDeal g.db d.id = some d := getDeal_of_mem hwf hd
        show (cbAdminDispute admins g uid k d.id now).2 = _ ∨
          (cbAdminDispute admins g uid k d.id now).2 = _
        unfold cbAdminDispute
        by_cases hadm : uid ∉ admins
        · simp [hadm]
        · rw [if_neg hadm, hfind]
          simp [hne.2.2.2.2]

/-- Witness for C2: completed sample deal, a seller-accept attempt by
the real seller ends in the InvalidState branch and the row is kept. -/
theorem c2_terminal_frozen_witness :
    (∀ d' ∈ (handleUpdate [] ⟨⟨[completedDeal], [], 2, 1⟩, [], []⟩
        (.cb 20 (.seller_accept 1)) 7).1.db.deals, d'.id = completedDeal.id →
        d' = completedDeal)
    ∧ (∀ uid c, (Update.cb 20 (.seller_accept 1) : Update) = Update.cb uid c →
        cbDealId c = some completedDeal.id →
        (handleUpdate [] ⟨⟨[completedDeal], [], 2, 1⟩, [], []⟩
          (.cb 20 (.seller_accept 1)) 7).2 = Res.unauthorized ∨
        (handleUpdate [] ⟨⟨[completedDeal], [], 2, 1⟩, [], []⟩
          (.cb 20 (.seller_accept 1)) 7).2 = Res.invalidState) :=
  c2_terminal_frozen [] ⟨⟨[completedDeal], [], 2, 1⟩, [], []⟩
    (.cb 20 (.seller_accept 1)) 7 (by constructor <;> decide) completedDeal
    (by decide) (by decide)

/-- C6: a transition attempt on an existing deal by a user who does not
hold the role the matching transition row requires (stored seller for
seller rows, stored buyer for buyer rows, allow-list membership for
arbiter rows) fails with Unauthorized and commits nothing: the whole
state — status, updated_at and the audit log — is exactly as before. -/
theorem c6_unauthorized_no_change (admins : List Nat) (g : GState) (uid : Nat)
    (c : CbAction) (now : Nat) (hwf : WF g) (d : Deal) (hd : d ∈ g.db.deals)
    (hc : cbDealId c = some d.id)
    (hrole : requiredRole admins uid d c = false) :
    handleCb admins g uid c now = (g, Res.unauthorized) := by
  cases c with
  | menu_new_deal => cases hc
  | menu_my_deals => cases hc
  | new_deal_confirm isNo => cases hc
  | seller_accept i =>
      have hi : i = d.id := by simpa [cbDealId] using hc
      subst hi
      have hfind : getDeal g.db d.id = some d := getDeal_of_mem hwf hd
      have huid : uid ≠ d.seller_id := by simpa [requiredRole] using hrole
      show cbSellerAccept g uid d.id now = _
      unfold cbSellerAccept
      simp only [hfind]
      rw [if_pos huid]
  | seller_reject i =>
      have hi : i = d.id := by simpa [cbDealId] using hc
      subst hi
      have hfind : getDeal g.db d.id = some d := getDeal_of_mem hwf hd
      have huid : uid ≠ d.seller_id := by simpa [requiredRole] using hrole
      show cbSellerReject g uid d.id now = _
      unfold cbSellerReject
      simp only [hfind]
      rw [if_pos huid]
  | deal_paid i =>
      have hi : i = d.id := by simpa [cbDealId] using hc
      subst hi
      have hfind : getDeal g.db d.id = some d := getDeal_of_mem hwf hd
      have huid : uid ≠ d.buyer_id := by simpa [requiredRole] using hrole
      show cbDealPaid g uid d.id now = _
      unfold cbDealPaid
      simp only [hfind]
      rw [if_pos huid]
  | deal_cancel i =>
      have hi : i = d.id := by simpa [cbDealId] using hc
      subst hi
      have hfind : getDeal g.db d.id = some d := getDeal_of_mem hwf hd
      have huid : uid ≠ d.buyer_id := by simpa [requiredRole] using hrole
      show cbDealCancel g uid d.id now = _
      unfold cbDealCancel
      simp only [hfind]
      rw [if_pos huid]
  | deal_sent i =>
      have hi : i = d.id := by simpa [cbDealId] using hc
      subst hi
      have hfind : getDeal g.db d.id = some d := getDeal_of_mem hwf hd
      have huid : uid ≠ d.seller_id := by simpa [requiredRole] using hrole
      show cbDealSent g uid d.id now = _
      unfold cbDealSent
      simp only [hfind]
      rw [if_pos huid]
  | buyer_ok i =>
      have hi : i = d.id := by simpa [cbDealId] using hc
      subst hi
      have hfind : getDeal g.db d.id = some d := getDeal_of_mem hwf hd
      have huid : uid ≠ d.buyer_id := by simpa [requiredRole] using hrole
      show cbBuyerOk g uid d.id now = _
      unfold cbBuyerOk
      simp only [hfind]
      rw [if_pos huid]
  | buyer_dispute i =>
      have hi : i = d.id := by simpa [cbDealId] using hc
      subst hi
      have hfind : getDeal g.db d.id = some d := getDeal_of_mem hwf hd
      have huid : uid ≠ d.buyer_id := by simpa [requiredRole] using hrole
      show cbBuyerDispute g uid d.id now = _
      unfold cbBuyerDispute
      simp only [hfind]
      rw [if_pos huid]
  | adm k i =>
      have hadm : uid ∉ admins := by simpa [requiredRole] using hrole
      show cbAdminDispute admins g uid k i now = _
      unfold cbAdminDispute
      rw [if_pos hadm]

/-- Witness for C6: user 99 is neither party of the sample deal. -/
theorem c6_unauthorized_no_change_witness :
    handleCb [] gOne 99 (.seller_accept 1) 7 = (gOne, Res.unauthorized) :=
  c6_unauthorized_no_change [] gOne 99 (.seller_accept 1) 7
    (by constructor <;> decide) sampleDeal (by decide) (by decide) (by decide)

/-- C7 counterexample: the claim demands NotFound for a nonexistent
deal id for EVERY actor, including a non-arbiter attempting a dispute
resolution — but `cb_admin_dispute` checks `is_admin` before looking
the deal up, so that attempt fails Unauthorized instead. -/
theorem c7_counterexample :
    getDeal gEmpty.db 1 = none ∧
    (handleUpdate [] gEmpty (.cb 7 (.adm .buyer 1)) 0).2 = Res.unauthorized ∧
    Res.unauthorized ≠ Res.notFound :=
  ⟨by decide, by decide, by decide⟩

/-- C7 (amended): a callback naming a nonexistent deal id fails with
NotFound and changes nothing, for every buyer/seller handler with any
actor, and for the arbiter handler when the actor is allow-listed; a
non-arbiter attempting an arbiter action is instead rejected
Unauthorized, because the admin check precedes the deal lookup. -/
theorem c7_notfound_missing_deal (admins : List Nat) (g : GState) (uid : Nat)
    (c : CbAction) (now : Nat) (did : Nat) (hc : cbDealId c = some did)
    (hnone : getDeal g.db did = none)
    (hadm : ∀ k i, c = CbAction.adm k i → uid ∈ admins) :
    handleCb admins g uid c now = (g, Res.notFound) := by
  cases c with
  | menu_new_deal => cases hc
  | menu_my_deals => cases hc
  | new_deal_confirm isNo => cases hc
  | seller_accept i =>
      have hi : i = did := by simpa [cbDealId] using hc
      have hnone2 : getDeal g.db i = none := by rw [hi]; exact hnone
      show cbSellerAccept g uid i now = _
      unfold cbSellerAccept
      simp only [hnone2]
  | seller_reject i =>
      have hi : i = did := by simpa [cbDealId] using hc
      have hnone2 : getDeal g.db i = none := by rw [hi]; exact hnone
      show cbSellerReject g uid i now = _
      unfold cbSellerReject
      simp only [hnone2]
  | deal_paid i =>
      have hi : i = did := by simpa [cbDealId] using hc
      have hnone2 : getDeal g.db i = none := by rw [hi]; exact hnone
      show cbDealPaid g uid i now = _
      unfold cbDealPaid
      simp only [hnone2]
  | deal_cancel i =>
      have hi : i = did := by simpa [cbDealId] using hc
      have hnone2 : getDeal g.db i = none := by rw [hi]; exact hnone
      show cbDealCancel g uid i now = _
      unfold cbDealCancel
      simp only [hnone2]
  | deal_sent i =>
      have hi : i = did := by simpa [cbDealId] using hc
      have hnone2 : getDeal g.db i = none := by rw [hi]; exact hnone
      show cbDealSent g uid i now = _
      unfold cbDealSent
      simp only [hnone2]
  | buyer_ok i =>
      have hi : i = did := by simpa [cbDealId] using hc
      have hnone2 : getDeal g.db i = none := by rw [hi]; exact hnone
      show cbBuyerOk g uid i now = _
      unfold cbBuyerOk
      simp only [hnone2]
  | buyer_dispute i =>
      have hi : i = did := by simpa [cbDealId] using hc
      have hnone2 : getDeal g.db i = none := by rw [hi]; exact hnone
      show cbBuyerDispute g uid i now = _
      unfold cbBuyerDispute
      simp only [hnone2]
  | adm k i =>
      have hi : i = did := by simpa [cbDealId] using hc
      have hnone2 : getDeal g.db i = none := by rw [hi]; exact hnone
      have hin : uid ∈ admins := hadm k i rfl
      show cbAdminDispute admins g uid k i now = _
      unfold cbAdminDispute
      rw [if_neg (by simpa using hin)]
      simp only [hnone2]

/-- Witness for C7 (amended): seller-accept on an empty store. -/
theorem c7_notfound_missing_deal_witness :
    handleCb [] gEmpty 20 (.seller_accept 1) 7 = (gEmpty, Res.notFound) :=
  c7_notfound_missing_deal [] gEmpty 20 (.seller_accept 1) 7 1 (by decide) (by decide)
    (by intro k i h; cases h)

def c3run : GState :=
  (handleUpdate [] (handleUpdate [] (handleUpdate [] (handleUpdate [] (handleUpdate []
    gEmpty (.cb 5 .menu_new_deal) 0).1
    (.msg ⟨5, some "5", none⟩) 1).1
    (.msg ⟨5, some "10", none⟩) 2).1
    (.msg ⟨5, some "thing", none⟩) 3).1
    (.cb 5 (.new_deal_confirm false)) 4).1

/-- C3 counterexample: nothing rejects a creation session in which the
initiator supplies their own id as the seller — running the full wizard
(user 5 sends "5" as the seller id) inserts a deal whose buyer and
seller coincide, contradicting `buyer_id ≠ seller_id`. -/
theorem c3_counterexample : ∃ d ∈ c3run.db.deals, d.buyer_id = d.seller_id := by decide

/-- C3 (amended): deal creation performs no buyer-vs-seller check: the
confirm step inserts exactly buyer = initiator and seller = collected
id even when the two coincide, so a self-deal is constructible. -/
theorem c3_no_self_deal_check (g : GState) (uid now : Nat) (v : PyFloat) (ds : String)
    (hst : getState g uid = some SessionStep.nd_confirm)
    (htmp : dlookup g.temps uid = some ⟨some uid, some v, some ds⟩)
    (huid : uid ≠ 0) (hv : pyTruthy v = true) (hds : ds ≠ "") :
    (cbNewDealConfirm g uid false now).1.db.deals =
      g.db.deals ++
        [⟨g.db.nextDealId, uid, uid, v, ds, Status.await_seller_confirm, now, now⟩] := by
  unfold cbNewDealConfirm
  rw [if_neg (by rw [hst]; simp), if_neg (by simp)]
  have hfields : tmpFields ((dlookup g.temps uid).getD emptyTemp) = some (uid, v, ds) := by
    rw [htmp]
    simp [tmpFields, huid, hv, hds]
  simp only [hfields]
  rw [setState_db]
  rfl

/-- Witness for C3 (amended): user 5 confirming with itself as seller. -/
theorem c3_no_self_deal_check_witness :
    (cbNewDealConfirm ⟨store0, [(5, .nd_confirm)],
        [(5, ⟨some 5, some (.finite 10 0), some "thing"⟩)]⟩ 5 false 4).1.db.deals =
      store0.deals ++
        [⟨store0.nextDealId, 5, 5, .finite 10 0, "thing", Status.await_seller_confirm, 4, 4⟩] :=
  c3_no_self_deal_check ⟨store0, [(5, .nd_confirm)],
    [(5, ⟨some 5, some (.finite 10 0), some "thing"⟩)]⟩ 5 4 (.finite 10 0) "thing"
    (by decide) (by decide) (by decide) (by decide) (by decide)

/-- C4 counterexample: user 7 is mid-flow with a collected seller id;
pressing "new deal" restarts the wizard but the old seller id is still
in the accumulated-field map, contradicting "contains none of the old
values". -/
theorem c4_counterexample :
    getState (handleUpdate [] ⟨store0, [(7, .nd_amount)], [(7, ⟨some 2, none, none⟩)]⟩
        (.cb 7 .menu_new_deal) 0).1 7 = some SessionStep.nd_seller ∧
    dlookup (handleUpdate [] ⟨store0, [(7, .nd_amount)], [(7, ⟨some 2, none, none⟩)]⟩
        (.cb 7 .menu_new_deal) 0).1.temps 7 = some ⟨some 2, none, none⟩ :=
  ⟨by decide, by decide⟩

/-- C4 (amended): starting a new creation session resets the step to
the first one, but `set_state` creates an empty field map only when
none exists: previously collected fields are retained, to be
overwritten only as the steps are redone. -/
theorem c4_restart_keeps_fields (g : GState) (uid : Nat) (tmp : Temp)
    (htmp : dlookup g.temps uid = some tmp) :
    getState (cbMenuNewDeal g uid).1 uid = some SessionStep.nd_seller ∧
    (cbMenuNewDeal g uid).1.temps = g.temps := by
  unfold cbMenuNewDeal
  constructor
  · show getState (setState g uid (some .nd_seller)) uid = _
    simp [setState, getState, htmp, dlookup_dinsert_self]
  · show (setState g uid (some .nd_seller)).temps = g.temps
    simp [setState, htmp]

/-- Witness for C4 (amended): the state of the counterexample. -/
theorem c4_restart_keeps_fields_witness :
    getState (cbMenuNewDeal ⟨store0, [(7, .nd_amount)], [(7, ⟨some 2, none, none⟩)]⟩ 7).1 7 =
      some SessionStep.nd_seller ∧
    (cbMenuNewDeal ⟨store0, [(7, .nd_amount)], [(7, ⟨some 2, none, none⟩)]⟩ 7).1.temps =
      (⟨store0, [(7, .nd_amount)], [(7, ⟨some 2, none, none⟩)]⟩ : GState).temps :=
  c4_restart_keeps_fields ⟨store0, [(7, .nd_amount)], [(7, ⟨some 2, none, none⟩)]⟩ 7
    ⟨some 2, none, none⟩ (by decide)

/-- C10: if the confirm action arrives while any of the three
accumulated fields is missing (or falsy), no deal row is inserted and
no audit entry is written — the durable store is exactly as before —
the session is destroyed, and the user gets the missing-data reply. -/
theorem c10_confirm_missing_fields (g : GState) (uid now : Nat)
    (hst : getState g uid = some SessionStep.nd_confirm)
    (hmiss : tmpFields ((dlookup g.temps uid).getD emptyTemp) = none) :
    (cbNewDealConfirm g uid false now).1.db = g.db ∧
    getState (cbNewDealConfirm g uid false now).1 uid = none ∧
    dlookup (cbNewDealConfirm g uid false now).1.temps uid = none ∧
    (cbNewDealConfirm g uid false now).2 = Res.missingData := by
  unfold cbNewDealConfirm
  rw [if_neg (by rw [hst]; simp), if_neg (by simp)]
  simp only [hmiss]
  refine ⟨setState_db g uid none, ?_, ?_, by trivial⟩
  · show dlookup (dpop g.states uid) uid = none
    exact dlookup_dpop_self g.states uid
  · show dlookup (dpop g.temps uid) uid = none
    exact dlookup_dpop_self g.temps uid

/-- Witness for C10: a confirm with the amount never collected. -/
theorem c10_confirm_missing_fields_witness :
    (cbNewDealConfirm ⟨store0, [(5, .nd_confirm)], [(5, ⟨some 6, none, none⟩)]⟩
        5 false 4).1.db = store0 ∧
    getState (cbNewDealConfirm ⟨store0, [(5, .nd_confirm)], [(5, ⟨some 6, none, none⟩)]⟩
        5 false 4).1 5 = none ∧
    dlookup (cbNewDealConfirm ⟨store0, [(5, .nd_confirm)], [(5, ⟨some 6, none, none⟩)]⟩
        5 false 4).1.temps 5 = none ∧
    (cbNewDealConfirm ⟨store0, [(5, .nd_confirm)], [(5, ⟨some 6, none, none⟩)]⟩
        5 false 4).2 = Res.missingData :=
  c10_confirm_missing_fields ⟨store0, [(5, .nd_confirm)], [(5, ⟨some 6, none, none⟩)]⟩
    5 4 (by decide) (by decide)

def c5g : GState :=
  ⟨⟨[paidDeal], [], 2, 1⟩, [(9, .nd_confirm)], [(9, ⟨some 2, some (.finite 1 0), some "x"⟩)]⟩

/-- C5 counterexample: seller 9 has an active creation session in the
CONFIRM step (one of the four steps) and also a deal in
`paid_waiting_delivery`; no message handler is filtered on the CONFIRM
step, so a free-text message falls through to the catch-all handler and
IS interpreted as the delivery transition. -/
theorem c5_counterexample :
    getState c5g 9 = some SessionStep.nd_confirm ∧
    (handleUpdate [] c5g (.msg ⟨9, some "hello", none⟩) 3).2 = Res.delivery ∧
    (handleUpdate [] c5g (.msg ⟨9, some "hello", none⟩) 3).1.db.deals =
      [⟨1, 4, 9, .finite 5 0, "item", .wait_buyer_confirm, 0, 3⟩] :=
  ⟨by decide, by decide, by decide⟩

/-- C5 (amended): the delivery heuristic cannot fire for a sender in
COLLECT_SELLER (its step handler takes any content), nor for a sender
in COLLECT_AMOUNT or COLLECT_DESCRIPTION sending a text message (their
step handlers consume those): in those situations the durable store is
untouched by any inbound message.  It can still fire for a sender in
CONFIRM (no handler filters on that step), or in
COLLECT_AMOUNT/COLLECT_DESCRIPTION sending non-text content. -/
theorem c5_collect_steps_block_delivery (g : GState) (m : Msg) (now : Nat)
    (h : getState g m.sender = some SessionStep.nd_seller ∨
      ((getState g m.sender = some SessionStep.nd_amount ∨
        getState g m.sender = some SessionStep.nd_description) ∧ m.text.isSome = true)) :
    (handleMsg g m now).1.db = g.db := by
  unfold handleMsg
  split
  · rfl
  · split
    · exact stepSeller_db g m
    · exact stepAmount_db g m.sender _
    · exact stepDescription_db g m.sender _
    next h1 h2 h3 =>
      exfalso
      rcases h with hs | ⟨ha | hd, ht⟩
      · exact h1 hs
      · rcases Option.isSome_iff_exists.mp ht with ⟨t, ht2⟩
        exact h2 t ha ht2
      · rcases Option.isSome_iff_exists.mp ht with ⟨t, ht2⟩
        exact h3 t hd ht2

/-- Witness for C5 (amended): seller 9 mid COLLECT_AMOUNT sends text;
the paid deal is not touched. -/
theorem c5_collect_steps_block_delivery_witness :
    (handleMsg ⟨⟨[paidDeal], [], 2, 1⟩, [(9, .nd_amount)], [(9, emptyTemp)]⟩
        ⟨9, some "hello", none⟩ 3).1.db =
      (⟨⟨[paidDeal], [], 2, 1⟩, [(9, .nd_amount)], [(9, emptyTemp)]⟩ : GState).db :=
  c5_collect_steps_block_delivery ⟨⟨[paidDeal], [], 2, 1⟩, [(9, .nd_amount)], [(9, emptyTemp)]⟩
    ⟨9, some "hello", none⟩ 3 (Or.inr ⟨Or.inl (by decide), by decide⟩)

def c8g : GState := ⟨store0, [(5, .nd_amount)], [(5, emptyTemp)]⟩

/-- C8 counterexample: the input "nan" is not a decimal number strictly
greater than zero, yet `float("nan")` succeeds and `nan <= 0` is false,
so the amount step stores NaN and advances to the description step
instead of re-prompting — the claimed "if and only if" fails. -/
theorem c8_counterexample :
    specPositiveDecimal "nan" = false ∧
    getState (stepAmount c8g 5 "nan").1 5 = some SessionStep.nd_description ∧
    dlookup (stepAmount c8g 5 "nan").1.temps 5 = some ⟨none, some PyFloat.nan, none⟩ ∧
    (stepAmount c8g 5 "nan").2 = Res.ok :=
  ⟨by decide, by decide, by decide, by decide⟩

/-- C8 (amended): in the COLLECT_AMOUNT step the session advances to
COLLECT_DESCRIPTION, storing the parsed value, if and only if
`float(text with commas replaced by periods)` succeeds with a value `v`
for which `v <= 0` is false — every finite positive decimal, but also
`inf` and `nan`; any other input (unparsable, non-positive, `-inf`)
re-prompts with the step and the stored fields unchanged. -/
theorem c8_amount_step (g : GState) (uid : Nat) (t : String) (tmp : Temp)
    (htmp : dlookup g.temps uid = some tmp) :
    (∀ v, pyFloatOfString (replaceCommaDot t) = some v → pyLeZero v = false →
      stepAmount g uid t =
        (setState { g with temps := dinsert g.temps uid { tmp with amount := some v } }
          uid (some SessionStep.nd_description), Res.ok))
    ∧ ((pyFloatOfString (replaceCommaDot t) = none ∨
        (∃ v, pyFloatOfString (replaceCommaDot t) = some v ∧ pyLeZero v = true)) →
      stepAmount g uid t = (g, Res.reprompt)) := by
  constructor
  · intro v hv hle
    unfold stepAmount
    simp only [hv, hle, htmp]
    simp
  · intro h
    unfold stepAmount
    rcases h with hn | ⟨v, hv, hle⟩
    · simp only [hn]
    · simp only [hv, hle]
      simp

/-- Witness for C8 (amended): "19,5" parses to 19.5 and advances. -/
theorem c8_amount_step_witness :
    stepAmount c8g 5 "19,5" =
      (setState ⟨c8g.db, c8g.states, dinsert c8g.temps 5 ⟨none, some (.finite 195 (-1)), none⟩⟩
        5 (some SessionStep.nd_description), Res.ok) :=
  (c8_amount_step c8g 5 "19,5" emptyTemp (by decide)).1 (.finite 195 (-1))
    (by decide) (by decide)
